import Mathlib

/-!
Verification of the account-management authentication core.

This file is a shallow embedding of the token lifecycle logic of the
repository: the credential validator (internal/service/auth), the token
issuer (jwts.go), the refresh-token store operations (internal/database
/tokens.go, embedded from the SQL statements), and the four HTTP handlers
(internal/webserver/accounts/handlers.go), together with the error
writer (internal/webserver/httputils).

Modelling conventions: machine time is a `Nat` of seconds; the database
is a list of rows; nondeterministic inputs of the Go code (freshly
generated UUIDs, the current time, the bcrypt salt, fallibility of the
database writes and of JWT signing) are explicit parameters.  Fallible
code returns `Except`.
-/

namespace AccountManagement

/-! ## Credential validator (internal/service/auth: passwords file) -/

structure ValidationError where
  message : String
deriving DecidableEq, Repr

/-- Character class of the Go regex `[a-z]` used by `validatePassword`. -/
def isLowercase (c : Char) : Bool := 'a' ≤ c && c ≤ 'z'

/-- Character class of the Go regex `[A-Z]` used by `validatePassword`. -/
def isUppercase (c : Char) : Bool := 'A' ≤ c && c ≤ 'Z'

/-- Character class of the Go regex `[0-9]` used by `validatePassword`. -/
def isDigitChar (c : Char) : Bool := '0' ≤ c && c ≤ '9'

/-- The fixed special-character set of the source regex, in source order. -/
def specialChars : List Char :=
  ['!', '@', '#', '$', '%', '^', '&', '*', '(', ')', ',', '.', '?', '\"',
   ':', '\x7b', '\x7d', '|', '<', '>']

/-- Character class of the Go special-character regex used by `validatePassword`. -/
def isSpecialChar (c : Char) : Bool := specialChars.contains c

/-- Matching of one of the character-class regexes against a string: Go
`regexp.MatchString` for a single character class succeeds iff some character
of the string belongs to the class. -/
def matchString (pattern : Char → Bool) (s : String) : Bool := s.data.any pattern

def complexityErrorMessage : String :=
  "password must contain uppercase, lowercase, digit, and special character"

/-- The password gate of the source.  Go `len(password)` counts UTF-8 bytes,
embedded here as `String.utf8ByteSize`.  The source iterates over the four
class patterns in order (lowercase, uppercase, digit, special), returning the
same complexity message on the first failure; the two length checks come
first. -/
def validatePassword (password : String) : Except ValidationError Unit :=
  if password.utf8ByteSize < 8 then
    .error ⟨"password must be at least 8 characters long"⟩
  else if 72 < password.utf8ByteSize then
    .error ⟨"password must be less than or equal to 72 characters long"⟩
  else if !matchString isLowercase password then .error ⟨complexityErrorMessage⟩
  else if !matchString isUppercase password then .error ⟨complexityErrorMessage⟩
  else if !matchString isDigitChar password then .error ⟨complexityErrorMessage⟩
  else if !matchString isSpecialChar password then .error ⟨complexityErrorMessage⟩
  else .ok ()

/-- Modelled from the spec: bcrypt hashing (golang.org/x/crypto/bcrypt, an
external library whose code is not part of this repository).  The spec calls
it a salted, adaptive one-way function whose verification recomputes the hash
from the stored salt and cost and compares.  The model records cost, salt and
the password itself, so hashing is injective per salt (an ideal, collision-free
hash); one-wayness is not claimed by any theorem below. -/
structure BcryptHash where
  cost : Nat
  salt : Nat
  key : String
deriving DecidableEq, Repr

/-- Default cost of the bcrypt library (bcrypt.DefaultCost). -/
def bcryptDefaultCost : Nat := 10

def bcryptGenerateFromPassword (salt cost : Nat) (password : String) : BcryptHash :=
  ⟨cost, salt, password⟩

def bcryptCompareHashAndPassword (hashed : BcryptHash) (password : String) : Bool :=
  bcryptGenerateFromPassword hashed.salt hashed.cost password == hashed

/-- Source `HashPassword`: validate, then hash with the default cost.  The
salt drawn internally by the bcrypt library is an explicit parameter here. -/
def HashPassword (salt : Nat) (password : String) : Except ValidationError BcryptHash :=
  match validatePassword password with
  | .error e => .error e
  | .ok () => .ok (bcryptGenerateFromPassword salt bcryptDefaultCost password)

/-- Source `PasswordIsCorrect`: bcrypt.CompareHashAndPassword succeeds. -/
def PasswordIsCorrect (password : String) (hashedPassword : BcryptHash) : Bool :=
  bcryptCompareHashAndPassword hashedPassword password

/-! ## Email validation

The source wraps `net/mail.ParseAddress` from the Go standard library. -/

/-- RFC 5322 atext specials (beyond letters and digits), as accepted in
dot-atom local parts and domains. -/
def atextSpecials : List Char :=
  ['!', '#', '$', '%', '&', '*', '+', '-', '/', '=', '?', '^', '_', '|', '~',
   Char.ofNat 39, Char.ofNat 96, Char.ofNat 123, Char.ofNat 125]

def isAtext (c : Char) : Bool := c.isAlpha || c.isDigit || atextSpecials.contains c

def hasDotDot : List Char → Bool
  | [] => false
  | [_] => false
  | c1 :: c2 :: rest => (c1 == '.' && c2 == '.') || hasDotDot (c2 :: rest)

/-- Dot-atom: a nonempty sequence of nonempty atext runs separated by single
dots (no leading, trailing, or doubled dot). -/
def dotAtom (s : List Char) : Bool :=
  !s.isEmpty &&
  s.all (fun c => isAtext c || c == '.') &&
  !(s.head? == some '.') &&
  !(s.getLast? == some '.') &&
  !hasDotDot s

/-- Modelled from the spec: the source `IsValidEmail` delegates to
`net/mail.ParseAddress` (Go standard library, not part of this repository);
the spec describes it as RFC 5322-lite address parsing that must reject a
missing at-sign, a missing domain, multiple at-signs, and embedded
whitespace.  The model parses a bare addr-spec: a dot-atom local part, one
at-sign, and a dot-atom domain (quoted local parts and display-name forms
are out of the lite model). -/
def IsValidEmail (email : String) : Bool :=
  match email.data.span (fun c => !(c == '@')) with
  | (_, []) => false
  | (localPart, _ :: domain) => dotAtom localPart && dotAtom domain

/-! ## Token issuer (internal/service/auth/jwts.go) -/

structure Config where
  jwtSecretKey : String
  accessTokenTTLMinutes : Nat
  refreshTokenTTLMinutes : Nat
deriving DecidableEq, Repr

/-- The claims baked into a signed access token by `NewAccessToken`: the
account id, issuer, issued-at, expires-at, the unique jti, and the symmetric
signing key (standing for the HMAC-SHA256 signature). -/
structure AccessToken where
  accountID : String
  issuer : String
  issuedAt : Nat
  expiresAt : Nat
  jti : String
  signingKey : String
deriving DecidableEq, Repr

/-- Source `NewAccessToken`: expiry is now plus the configured TTL; signing
can fail only on key-related internal errors, modelled by the `signOk`
flag. -/
def newAccessToken (cfg : Config) (accountID jti : String) (now : Nat) (signOk : Bool) :
    Except String (AccessToken × Nat) :=
  let expiresAt := now + cfg.accessTokenTTLMinutes * 60
  if signOk then
    .ok (⟨accountID, "account-management", now, expiresAt, jti, cfg.jwtSecretKey⟩, expiresAt)
  else
    .error "error signing token"

/-- Source `NewRefreshToken`: a fresh opaque UUID (here: the `fresh`
parameter) and expiry now plus the configured TTL. -/
def newRefreshToken (cfg : Config) (fresh : String) (now : Nat) : String × Nat :=
  (fresh, now + cfg.refreshTokenTTLMinutes * 60)

/-! ## Refresh-token store (internal/database/tokens.go) -/

structure RefreshToken where
  token : String
  accountID : String
  expiresAt : Nat
  createdAt : Nat
deriving DecidableEq, Repr

/-- Source `createRefreshTokenSQL`: INSERT with ON CONFLICT (token) DO UPDATE
SET token, expires_at, created_at = NOW().  On a token-key conflict the row's
expiry and creation time are overwritten (the account_id column is not in the
update list); otherwise a fresh row is appended with created_at = NOW(). -/
def createRefreshToken (store : List RefreshToken) (tok accountID : String)
    (expiresAt now : Nat) : List RefreshToken :=
  if store.any (fun r => r.token == tok) then
    store.map (fun r =>
      if r.token == tok then { r with expiresAt := expiresAt, createdAt := now } else r)
  else
    store ++ [⟨tok, accountID, expiresAt, now⟩]

/-- Source `getRefreshTokenSQL`: SELECT by primary key; no row is
`ErrRefreshTokenNotFound`, modelled as `none`. -/
def getRefreshToken (store : List RefreshToken) (tok : String) : Option RefreshToken :=
  store.find? (fun r => r.token == tok)

/-- Source `deleteRefreshTokenSQL`: DELETE FROM refresh_tokens WHERE
account_id = the given account. -/
def deleteRefreshToken (store : List RefreshToken) (accountID : String) : List RefreshToken :=
  store.filter (fun r => !(r.accountID == accountID))

/-! ## Account store -/

structure Account where
  id : String
  email : String
  passwordHash : BcryptHash
deriving DecidableEq, Repr

/-- Modelled from the spec: `GetAccountByEmail` of the account repository
(the file internal/database/accounts.go is not among the sources; only its
callers and tests are).  Spec: exact-match lookup on the unique email column,
no normalization; an absent email is `ErrAccountNotFound`, modelled as
`none`. -/
def getAccount (accounts : List Account) (email : String) : Option Account :=
  accounts.find? (fun a => a.email == email)

/-- Modelled from the spec: `CreateAccount` of the account repository (file
not among the sources).  Spec: insert a new identity row; violating the
unique-email constraint is surfaced as `ErrAccountAlreadyExists`, modelled as
the `Except` error; the generated account id is the `newID` parameter. -/
def createAccount (accounts : List Account) (newID email : String) (hash : BcryptHash) :
    Except Unit (Account × List Account) :=
  if accounts.any (fun a => a.email == email) then .error ()
  else
    let acc : Account := ⟨newID, email, hash⟩
    .ok (acc, accounts ++ [acc])

/-! ## Error responses (internal/webserver/httputils) -/

/-- Source `httputils.ErrorResponse`.  `statusCode` is the header-only status;
`status` and `requestID` are filled in by `WriteErrorResponse`.  The handlers
construct values setting only `message`, `type` and `statusCode`. -/
structure ErrorResponse where
  message : String := ""
  type : String := ""
  statusCode : Nat := 0
  status : String := ""
  requestID : String := ""
deriving DecidableEq, Repr

/-! ## Account handlers (internal/webserver/accounts/handlers.go)

Each handler is embedded as a pure function from its request fields and the
current store to an `Except ErrorResponse` result paired with the store it
leaves behind.  The request-body JSON decoding layer (400 on undecodable
bodies) and the paths that surface an unexpected database read error as a 500
are not modelled: the store lookups themselves are total here; database write
failures and JWT signing failures are the explicit `persistOk` / `mintOk` /
`deleteOk` flags. -/

def tokenTypeBearer : String := "Bearer"

def errTypeAccountAlreadyExists : String := "account_already_exists"
def errTypeAccountNotFound : String := "account_not_found"
def errTypeIncorrectPassword : String := "incorrect_password"
def errTypeInvalidRefreshToken : String := "invalid_refresh_token"
def errTypeValidationError : String := "validation_error"

/-- Source `loginOrRefreshResponse`, used for both login and refresh. -/
structure LoginOrRefreshResponse where
  message : String
  accountID : String
  accessToken : AccessToken
  refreshToken : String
  tokenType : String
  expiresIn : Nat
deriving DecidableEq, Repr

/-- The 500 both failure branches of `generateAndPersistTokens` produce. -/
def internalTokenError : ErrorResponse :=
  { message := "Error creating new token", statusCode := 500 }

/-- Source `generateAndPersistTokens`: mint a refresh token, persist it,
then mint an access token.  A failing persist leaves the store unchanged and
returns a 500; a failing access-token mint returns a 500 but the refresh
token row has already been written and stays. -/
def generateAndPersistTokens (cfg : Config) (store : List RefreshToken)
    (accountID fresh jti : String) (now : Nat) (persistOk mintOk : Bool) :
    Except ErrorResponse LoginOrRefreshResponse × List RefreshToken :=
  let minted := newRefreshToken cfg fresh now
  if !persistOk then
    (.error internalTokenError, store)
  else
    let store1 := createRefreshToken store minted.1 accountID minted.2 now
    match newAccessToken cfg accountID jti now mintOk with
    | .error _ => (.error internalTokenError, store1)
    | .ok (accessToken, accessTokenExpiresAt) =>
        (.ok { message := "Success", accountID := accountID, accessToken := accessToken,
               refreshToken := minted.1, tokenType := tokenTypeBearer,
               expiresIn := accessTokenExpiresAt - now }, store1)

/-- Source `register` handler: email gate, password gate and hash, account
creation with duplicate detection. -/
def register (accounts : List Account) (email password : String) (salt : Nat)
    (newID : String) : Except ErrorResponse String × List Account :=
  if !IsValidEmail email then
    (.error { message := "The provided email address is invalid",
              type := errTypeValidationError, statusCode := 422 }, accounts)
  else
    match HashPassword salt password with
    | .error e =>
        (.error { message := "Validation Error: " ++ e.message,
                  type := errTypeValidationError, statusCode := 422 }, accounts)
    | .ok hashedPassword =>
        match createAccount accounts newID email hashedPassword with
        | .error () =>
            (.error { message := "An account with this email already exists",
                      type := errTypeAccountAlreadyExists, statusCode := 409 }, accounts)
        | .ok (createdAccount, accounts1) =>
            (.ok createdAccount.id, accounts1)

/-- Source `login` handler: account lookup by email first (absent email is a
401 of type account_not_found, whatever the password), then bcrypt
verification (mismatch is a 401 of the distinct type incorrect_password),
then token issuance. -/
def login (cfg : Config) (accounts : List Account) (store : List RefreshToken)
    (email password fresh jti : String) (now : Nat) (persistOk mintOk : Bool) :
    Except ErrorResponse LoginOrRefreshResponse × List RefreshToken :=
  match getAccount accounts email with
  | none =>
      (.error { message := "No account was found matching this email",
                type := errTypeAccountNotFound, statusCode := 401 }, store)
  | some account =>
      if !PasswordIsCorrect password account.passwordHash then
        (.error { message := "Password is incorrect",
                  type := errTypeIncorrectPassword, statusCode := 401 }, store)
      else
        generateAndPersistTokens cfg store account.id fresh jti now persistOk mintOk

/-- The 401 the refresh handler returns both for a missing row and for an
expired one. -/
def sessionExpiredError : ErrorResponse :=
  { message := "Your session has expired", type := errTypeInvalidRefreshToken,
    statusCode := 401 }

/-- Source `refresh` handler: look the presented token up; a missing row or a
row with expiry strictly before now is a 401 of type invalid_refresh_token
and leaves the store untouched (the expired row is not deleted); otherwise
issue new tokens for the row's account.  The presented row is never deleted
on this path. -/
def refresh (cfg : Config) (store : List RefreshToken) (reqToken fresh jti : String)
    (now : Nat) (persistOk mintOk : Bool) :
    Except ErrorResponse LoginOrRefreshResponse × List RefreshToken :=
  match getRefreshToken store reqToken with
  | none => (.error sessionExpiredError, store)
  | some token =>
      if token.expiresAt < now then
        (.error sessionExpiredError, store)
      else
        generateAndPersistTokens cfg store token.accountID fresh jti now persistOk mintOk

/-- Source `logout` handler: a missing row is a success (idempotent logout);
a present row triggers `DeleteRefreshToken` keyed by the row's account id,
which removes every token of that account.  `deleteOk` models the database
delete call erroring (surfaced as a 500). -/
def logout (store : List RefreshToken) (reqToken : String) (deleteOk : Bool) :
    Except ErrorResponse String × List RefreshToken :=
  match getRefreshToken store reqToken with
  | none => (.ok "Logged out successfully", store)
  | some token =>
      if !deleteOk then
        (.error { message := "There was an unexpected error logging out",
                  statusCode := 500 }, store)
      else
        (.ok "Logged out successfully", deleteRefreshToken store token.accountID)

/-! ## The HTTP response writer (internal/webserver/httputils)

Modelled from the spec: Go `net/http.ResponseWriter` semantics, an external
interface of the standard library.  The documented contract: the first call
to `Write` before any `WriteHeader` triggers an implicit `WriteHeader(200)`;
once the header has been written, any later `WriteHeader` call is superfluous
and changes nothing. -/

structure ResponseWriter where
  committedStatus : Option Nat
  body : List String
deriving DecidableEq, Repr

def freshWriter : ResponseWriter := ⟨none, []⟩

def rwWrite (w : ResponseWriter) (chunk : String) : ResponseWriter :=
  match w.committedStatus with
  | none => ⟨some 200, w.body ++ [chunk]⟩
  | some s => ⟨some s, w.body ++ [chunk]⟩

def rwWriteHeader (w : ResponseWriter) (code : Nat) : ResponseWriter :=
  match w.committedStatus with
  | none => ⟨some code, w.body⟩
  | some s => ⟨some s, w.body⟩

/-- Go `http.StatusText` restricted to the codes this service uses. -/
def statusText (code : Nat) : String :=
  if code == 200 then "OK"
  else if code == 201 then "Created"
  else if code == 400 then "Bad Request"
  else if code == 401 then "Unauthorized"
  else if code == 409 then "Conflict"
  else if code == 422 then "Unprocessable Entity"
  else if code == 500 then "Internal Server Error"
  else ""

/-- Rendering of the error body by `json.NewEncoder(w).Encode`; the exact
text is irrelevant to the theorems, only that encoding performs one body
write. -/
def encodeErrorResponse (e : ErrorResponse) : String :=
  "\x7b\"message\":\"" ++ e.message ++ "\",\"type\":\"" ++ e.type ++
    "\",\"http_status\":\"" ++ e.status ++ "\",\"request_id\":\"" ++ e.requestID ++ "\"\x7d\n"

/-- Source `httputils.WriteErrorResponse`: default the status code to 500,
derive the status text, stamp the request id, then JSON-encode the body into
the writer, and only afterwards call `WriteHeader` with the status code. -/
def WriteErrorResponse (w : ResponseWriter) (requestID : String)
    (httpErr : ErrorResponse) : ResponseWriter :=
  let err1 := if httpErr.statusCode == 0 then { httpErr with statusCode := 500 } else httpErr
  let err2 := { err1 with status := statusText err1.statusCode, requestID := requestID }
  let w1 := rwWrite w (encodeErrorResponse err2)
  rwWriteHeader w1 err2.statusCode

/-- Source `httputils.WriteJSONResponse`: header first, then the body. -/
def WriteJSONResponse (w : ResponseWriter) (status : Nat) (body : String) : ResponseWriter :=
  let w1 := rwWriteHeader w status
  rwWrite w1 body

/-! ## HTTP-level wiring of the four handlers

Every error result of a handler is written with `WriteErrorResponse`, every
success with `WriteJSONResponse`, exactly as in handlers.go.  The success
bodies stand in for the marshalled response structs. -/

def registerHTTP (w : ResponseWriter) (requestID : String) (accounts : List Account)
    (email password : String) (salt : Nat) (newID : String) : ResponseWriter :=
  match (register accounts email password salt newID).1 with
  | .error e => WriteErrorResponse w requestID e
  | .ok accountID => WriteJSONResponse w 201 ("account created " ++ accountID)

def loginHTTP (w : ResponseWriter) (requestID : String) (cfg : Config)
    (accounts : List Account) (store : List RefreshToken)
    (email password fresh jti : String) (now : Nat) (persistOk mintOk : Bool) :
    ResponseWriter :=
  match (login cfg accounts store email password fresh jti now persistOk mintOk).1 with
  | .error e => WriteErrorResponse w requestID e
  | .ok resp => WriteJSONResponse w 200 ("tokens " ++ resp.refreshToken ++ " " ++ resp.accessToken.jti)

def refreshHTTP (w : ResponseWriter) (requestID : String) (cfg : Config)
    (store : List RefreshToken) (reqToken fresh jti : String) (now : Nat)
    (persistOk mintOk : Bool) : ResponseWriter :=
  match (refresh cfg store reqToken fresh jti now persistOk mintOk).1 with
  | .error e => WriteErrorResponse w requestID e
  | .ok resp => WriteJSONResponse w 200 ("tokens " ++ resp.refreshToken ++ " " ++ resp.accessToken.jti)

def logoutHTTP (w : ResponseWriter) (requestID : String) (store : List RefreshToken)
    (reqToken : String) (deleteOk : Bool) : ResponseWriter :=
  match (logout store reqToken deleteOk).1 with
  | .error e => WriteErrorResponse w requestID e
  | .ok msg => WriteJSONResponse w 200 msg

/-! ## Reachable states

The protocol is stateless between calls; all state lives in the store.  An
`Op` carries the request fields together with the nondeterministic inputs of
that call (fresh UUIDs, the clock, salt, failure flags). -/

structure AppState where
  accounts : List Account
  tokens : List RefreshToken
deriving DecidableEq, Repr

def initialState : AppState := ⟨[], []⟩

inductive Op where
  | register (email password : String) (salt : Nat) (newID : String)
  | login (email password fresh jti : String) (now : Nat) (persistOk mintOk : Bool)
  | refresh (reqToken fresh jti : String) (now : Nat) (persistOk mintOk : Bool)
  | logout (reqToken : String) (deleteOk : Bool)
deriving DecidableEq, Repr

def applyOp (cfg : Config) (s : AppState) : Op → AppState
  | .register email password salt newID =>
      { s with accounts := (register s.accounts email password salt newID).2 }
  | .login email password fresh jti now persistOk mintOk =>
      { s with tokens := (login cfg s.accounts s.tokens email password fresh jti now persistOk mintOk).2 }
  | .refresh reqToken fresh jti now persistOk mintOk =>
      { s with tokens := (refresh cfg s.tokens reqToken fresh jti now persistOk mintOk).2 }
  | .logout reqToken deleteOk =>
      { s with tokens := (logout s.tokens reqToken deleteOk).2 }

def runOps (cfg : Config) (s : AppState) (ops : List Op) : AppState :=
  ops.foldl (applyOp cfg) s

/-- The tokens of an account that are live (not expired) at time `now`,
where expiry uses the refresh handler's strict comparison. -/
def liveTokensFor (store : List RefreshToken) (accountID : String) (now : Nat) :
    List RefreshToken :=
  store.filter (fun r => r.accountID == accountID && !(r.expiresAt < now))

/-- Well-formedness actually maintained by the store: the token string is the
primary key, so no two rows share it. -/
def tokenKeysUnique (store : List RefreshToken) : Prop :=
  store.Pairwise (fun r1 r2 => r1.token ≠ r2.token)

instance {ε α : Type} [DecidableEq ε] [DecidableEq α] : DecidableEq (Except ε α) := fun a b =>
  match a, b with
  | .error e1, .error e2 =>
      decidable_of_iff (e1 = e2) ⟨fun h => h ▸ rfl, fun h => by injection h⟩
  | .error _, .ok _ => isFalse (fun h => by injection h)
  | .ok _, .error _ => isFalse (fun h => by injection h)
  | .ok a1, .ok a2 =>
      decidable_of_iff (a1 = a2) ⟨fun h => h ▸ rfl, fun h => by injection h⟩

/-- Concrete configuration for witnesses (secret key, 15-minute access TTL,
1440-minute refresh TTL: the documented defaults). -/
def cfgEx : Config := ⟨"secret", 15, 1440⟩

/-- Concrete trace: register one account, then log in twice.  Both logins
succeed and each persists a refresh token for the same account. -/
def c1Ops : List Op :=
  [ .register "a@b.com" "Aa1!bcde" 0 "acct-1",
    .login "a@b.com" "Aa1!bcde" "tok-1" "jti-1" 0 true true,
    .login "a@b.com" "Aa1!bcde" "tok-2" "jti-2" 0 true true ]

/-! ## Store lemmas -/

theorem find?_token_map_update (store : List RefreshToken) (tok : String)
    (expiresAt now : Nat) (t : String) (h : t ≠ tok) :
    List.find? (fun r => r.token == t)
        (store.map (fun r =>
          if r.token == tok then { r with expiresAt := expiresAt, createdAt := now } else r))
      = List.find? (fun r => r.token == t) store := by
  induction store with
  | nil => rfl
  | cons r rest ih =>
      by_cases hr : r.token = tok
      · have hpred : (r.token == t) = false := by
          rw [beq_eq_false_iff_ne, hr]
          exact fun hh => h hh.symm
        simp only [List.map_cons, List.find?_cons, if_pos (beq_iff_eq.mpr hr)]
        rw [show (({ r with expiresAt := expiresAt, createdAt := now } : RefreshToken).token == t)
            = false from hpred]
        exact ih
      · simp only [List.map_cons, List.find?_cons,
          if_neg (fun hh => hr (beq_iff_eq.mp hh))]
        cases hrt : (r.token == t) with
        | true => rfl
        | false => exact ih

theorem getRefreshToken_createRefreshToken_ne (store : List RefreshToken)
    (tok accountID : String) (expiresAt now : Nat) (t : String) (h : t ≠ tok) :
    getRefreshToken (createRefreshToken store tok accountID expiresAt now) t
      = getRefreshToken store t := by
  unfold createRefreshToken getRefreshToken
  split
  · exact find?_token_map_update store tok expiresAt now t h
  · rw [List.find?_append]
    have hnew : List.find? (fun r => r.token == t)
        [(⟨tok, accountID, expiresAt, now⟩ : RefreshToken)] = none := by
      simp only [List.find?_cons]
      rw [show ((⟨tok, accountID, expiresAt, now⟩ : RefreshToken).token == t) = false from by
        rw [beq_eq_false_iff_ne]; exact fun hh => h hh.symm]
      rfl
    rw [hnew]
    cases List.find? (fun r => r.token == t) store <;> rfl

theorem getRefreshToken_createRefreshToken_self (store : List RefreshToken)
    (tok accountID : String) (expiresAt now : Nat)
    (h : getRefreshToken store tok = none) :
    getRefreshToken (createRefreshToken store tok accountID expiresAt now) tok
      = some ⟨tok, accountID, expiresAt, now⟩ := by
  have hall := List.find?_eq_none.mp h
  have hany : store.any (fun r => r.token == tok) = false := by
    rw [Bool.eq_false_iff]
    intro hc
    obtain ⟨x, hx, hpx⟩ := List.any_eq_true.mp hc
    exact hall x hx hpx
  unfold createRefreshToken
  rw [hany]
  unfold getRefreshToken at h ⊢
  simp only [Bool.false_eq_true, if_false, List.find?_append, h]
  simp [List.find?_cons]

theorem tokenKeysUnique_createRefreshToken (store : List RefreshToken)
    (tok accountID : String) (expiresAt now : Nat)
    (h : tokenKeysUnique store) :
    tokenKeysUnique (createRefreshToken store tok accountID expiresAt now) := by
  unfold tokenKeysUnique createRefreshToken
  split
  · rw [List.pairwise_map]
    refine h.imp ?_
    intro a b hab
    have ha : (if a.token == tok then { a with expiresAt := expiresAt, createdAt := now } else a).token
        = a.token := by split <;> rfl
    have hb : (if b.token == tok then { b with expiresAt := expiresAt, createdAt := now } else b).token
        = b.token := by split <;> rfl
    rw [ha, hb]
    exact hab
  · next hany =>
      rw [List.pairwise_append]
      refine ⟨h, List.pairwise_singleton _ _, ?_⟩
      intro a ha b hb
      have hb1 : b = ⟨tok, accountID, expiresAt, now⟩ := by
        simpa using hb
      have : ¬ (a.token == tok) = true := fun hc => hany (List.any_eq_true.mpr ⟨a, ha, hc⟩)
      rw [hb1]
      exact fun hc => this (beq_iff_eq.mpr hc)

theorem tokenKeysUnique_deleteRefreshToken (store : List RefreshToken) (accountID : String)
    (h : tokenKeysUnique store) :
    tokenKeysUnique (deleteRefreshToken store accountID) :=
  List.Pairwise.sublist (List.filter_sublist store) h

/-! ## Preservation of the token-key invariant by every operation -/

theorem generateAndPersistTokens_snd_cases (cfg : Config) (store : List RefreshToken)
    (accountID fresh jti : String) (now : Nat) (persistOk mintOk : Bool) :
    (generateAndPersistTokens cfg store accountID fresh jti now persistOk mintOk).2 = store ∨
    (generateAndPersistTokens cfg store accountID fresh jti now persistOk mintOk).2 =
      createRefreshToken store fresh accountID (now + cfg.refreshTokenTTLMinutes * 60) now := by
  cases persistOk
  · left; rfl
  · cases mintOk
    · right; rfl
    · right; rfl

theorem tokenKeysUnique_generateAndPersistTokens (cfg : Config) (store : List RefreshToken)
    (accountID fresh jti : String) (now : Nat) (persistOk mintOk : Bool)
    (h : tokenKeysUnique store) :
    tokenKeysUnique (generateAndPersistTokens cfg store accountID fresh jti now persistOk mintOk).2 := by
  rcases generateAndPersistTokens_snd_cases cfg store accountID fresh jti now persistOk mintOk
    with h2 | h2 <;> rw [h2]
  · exact h
  · exact tokenKeysUnique_createRefreshToken store fresh accountID _ now h

theorem tokenKeysUnique_login (cfg : Config) (accounts : List Account)
    (store : List RefreshToken) (email password fresh jti : String) (now : Nat)
    (persistOk mintOk : Bool) (h : tokenKeysUnique store) :
    tokenKeysUnique (login cfg accounts store email password fresh jti now persistOk mintOk).2 := by
  unfold login
  cases getAccount accounts email with
  | none => exact h
  | some account =>
      dsimp only
      split
      · exact h
      · exact tokenKeysUnique_generateAndPersistTokens cfg store account.id fresh jti now
          persistOk mintOk h

theorem tokenKeysUnique_refresh (cfg : Config) (store : List RefreshToken)
    (reqToken fresh jti : String) (now : Nat) (persistOk mintOk : Bool)
    (h : tokenKeysUnique store) :
    tokenKeysUnique (refresh cfg store reqToken fresh jti now persistOk mintOk).2 := by
  unfold refresh
  cases getRefreshToken store reqToken with
  | none => exact h
  | some token =>
      dsimp only
      split
      · exact h
      · exact tokenKeysUnique_generateAndPersistTokens cfg store token.accountID fresh jti now
          persistOk mintOk h

theorem tokenKeysUnique_logout (store : List RefreshToken) (reqToken : String)
    (deleteOk : Bool) (h : tokenKeysUnique store) :
    tokenKeysUnique (logout store reqToken deleteOk).2 := by
  unfold logout
  cases getRefreshToken store reqToken with
  | none => exact h
  | some token =>
      dsimp only
      split
      · exact h
      · exact tokenKeysUnique_deleteRefreshToken store token.accountID h

theorem tokenKeysUnique_applyOp (cfg : Config) (s : AppState) (op : Op)
    (h : tokenKeysUnique s.tokens) :
    tokenKeysUnique (applyOp cfg s op).tokens := by
  cases op with
  | register email password salt newID => exact h
  | login email password fresh jti now persistOk mintOk =>
      exact tokenKeysUnique_login cfg s.accounts s.tokens email password fresh jti now
        persistOk mintOk h
  | refresh reqToken fresh jti now persistOk mintOk =>
      exact tokenKeysUnique_refresh cfg s.tokens reqToken fresh jti now persistOk mintOk h
  | logout reqToken deleteOk => exact tokenKeysUnique_logout s.tokens reqToken deleteOk h

theorem tokenKeysUnique_runOps (cfg : Config) (ops : List Op) :
    ∀ s : AppState, tokenKeysUnique s.tokens → tokenKeysUnique (runOps cfg s ops).tokens := by
  induction ops with
  | nil => exact fun s h => h
  | cons op rest ih => exact fun s h => ih (applyOp cfg s op) (tokenKeysUnique_applyOp cfg s op h)

/-! ## Claim C1 -/

/-- C1, as stated, is false of the code: the claim asserts that every store
state reachable by Register, Login, Refresh and Logout has at most one
live (unexpired) refresh token per account, but token creation never deletes
an account's prior tokens, so registering an account and logging in twice
leaves two live tokens for that account.  This theorem refutes the claim at
that concrete trace. -/
theorem c1_counterexample_two_live_tokens :
    ¬ (∀ (ops : List Op) (accountID : String) (now : Nat),
        (liveTokensFor (runOps cfgEx initialState ops).tokens accountID now).length ≤ 1) :=
  fun h => absurd (h c1Ops "acct-1" 0) (by decide)

/-- C1 amended: the per-account bound does not hold (see the counterexample);
the uniqueness the store does maintain in every reachable state is per token
string, the primary key: no two rows share a token.  Creating a token never
deletes siblings, and only an explicit logout deletes account-wide. -/
theorem c1_amended_token_key_unique (cfg : Config) (ops : List Op) :
    tokenKeysUnique (runOps cfg initialState ops).tokens :=
  tokenKeysUnique_runOps cfg ops initialState List.Pairwise.nil

/-! ## Claim C2 -/

theorem refresh_success_eq (cfg : Config) (store : List RefreshToken)
    (T fresh jti : String) (now : Nat) (r : RefreshToken)
    (hget : getRefreshToken store T = some r) (hlive : ¬ r.expiresAt < now) :
    refresh cfg store T fresh jti now true true =
      (Except.ok
        { message := "Success",
          accountID := r.accountID,
          accessToken := ⟨r.accountID, "account-management", now,
                          now + cfg.accessTokenTTLMinutes * 60, jti, cfg.jwtSecretKey⟩,
          refreshToken := fresh,
          tokenType := tokenTypeBearer,
          expiresIn := (now + cfg.accessTokenTTLMinutes * 60) - now },
        createRefreshToken store fresh r.accountID (now + cfg.refreshTokenTTLMinutes * 60) now) := by
  unfold refresh
  rw [hget]
  dsimp only
  rw [if_neg hlive]
  rfl

/-- C2: a successful Refresh(T) on a present, unexpired token T leaves T's
row untouched (neither deleted nor modified) — T stays valid until its own
expiry or an explicit logout — and every row other than the newly minted
token's is unchanged.  The minted UUID `fresh` is assumed distinct from T
(collision of a fresh UUID with the presented token is the astronomically
unlikely case the spec sets aside). -/
theorem c2_refresh_keeps_presented_token (cfg : Config) (store : List RefreshToken)
    (T fresh jti : String) (now : Nat) (r : RefreshToken)
    (hget : getRefreshToken store T = some r)
    (hlive : ¬ r.expiresAt < now)
    (hfresh : fresh ≠ T) :
    (∃ resp, (refresh cfg store T fresh jti now true true).1 = .ok resp ∧
        resp.refreshToken = fresh) ∧
    getRefreshToken (refresh cfg store T fresh jti now true true).2 T = some r ∧
    ∀ t, t ≠ fresh →
      getRefreshToken (refresh cfg store T fresh jti now true true).2 t
        = getRefreshToken store t := by
  rw [refresh_success_eq cfg store T fresh jti now r hget hlive]
  refine ⟨⟨_, rfl, rfl⟩, ?_, ?_⟩
  · rw [getRefreshToken_createRefreshToken_ne store fresh r.accountID _ now T
      (fun hh => hfresh hh.symm)]
    exact hget
  · intro t ht
    exact getRefreshToken_createRefreshToken_ne store fresh r.accountID _ now t ht

theorem c2_witness :
    getRefreshToken (refresh cfgEx [⟨"t1", "acct", 100, 0⟩] "t1" "t2" "j" 50 true true).2 "t1"
      = some ⟨"t1", "acct", 100, 0⟩ :=
  (c2_refresh_keeps_presented_token cfgEx [⟨"t1", "acct", 100, 0⟩] "t1" "t2" "j" 50
    ⟨"t1", "acct", 100, 0⟩ (by decide) (by decide) (by decide)).2.1

/-! ## Claim C4 -/

/-- C4: a refresh token whose row exists but whose expiry is strictly in the
past is rejected with the 401 of type invalid_refresh_token, and the store is
returned unchanged: the expired row is not deleted and nothing is minted or
persisted, whatever the persistence and signing flags would have done. -/
theorem c4_expired_refresh_rejected (cfg : Config) (store : List RefreshToken)
    (T fresh jti : String) (now : Nat) (persistOk mintOk : Bool) (r : RefreshToken)
    (hget : getRefreshToken store T = some r) (hexp : r.expiresAt < now) :
    refresh cfg store T fresh jti now persistOk mintOk = (.error sessionExpiredError, store) := by
  unfold refresh
  rw [hget]
  dsimp only
  rw [if_pos hexp]

theorem c4_witness :
    refresh cfgEx [⟨"t1", "acct", 10, 0⟩] "t1" "t2" "j" 50 true true
      = (.error sessionExpiredError, [⟨"t1", "acct", 10, 0⟩]) :=
  c4_expired_refresh_rejected cfgEx [⟨"t1", "acct", 10, 0⟩] "t1" "t2" "j" 50 true true
    ⟨"t1", "acct", 10, 0⟩ (by decide) (by decide)

/-! ## Claim C3 -/

/-- C3: with a non-erroring store (the `true` flag), Logout(T) returns the
success message for every presented token — valid, expired, or unknown — and
when T's row is present, every refresh token of T's account is deleted, so no
live token for the account remains afterwards. -/
theorem c3_logout_succeeds_and_revokes_account (store : List RefreshToken) (T : String) :
    (logout store T true).1 = .ok "Logged out successfully" ∧
    ∀ r, getRefreshToken store T = some r →
      (∀ r2 ∈ (logout store T true).2, r2.accountID ≠ r.accountID) ∧
      ∀ now, liveTokensFor (logout store T true).2 r.accountID now = [] := by
  unfold logout
  cases hget : getRefreshToken store T with
  | none =>
      refine ⟨rfl, fun r hr => ?_⟩
      cases hr
  | some tok =>
      refine ⟨rfl, fun r hr => ?_⟩
      have htok : tok = r := by injection hr
      subst htok
      have hmem : ∀ r2 ∈ deleteRefreshToken store tok.accountID, r2.accountID ≠ tok.accountID := by
        intro r2 h2
        have h3 := (List.mem_filter.mp h2).2
        simp only [Bool.not_eq_eq_eq_not, Bool.not_true, beq_eq_false_iff_ne] at h3
        exact h3
      refine ⟨hmem, fun now => ?_⟩
      show List.filter (fun r => r.accountID == tok.accountID && !(r.expiresAt < now))
          (deleteRefreshToken store tok.accountID) = []
      rw [List.filter_eq_nil_iff]
      intro a ha
      have hne := hmem a ha
      simp [hne]

theorem c3_witness :
    liveTokensFor (logout [⟨"t1", "acct", 100, 0⟩, ⟨"t2", "acct", 200, 0⟩] "t1" true).2 "acct" 0
      = [] :=
  ((c3_logout_succeeds_and_revokes_account [⟨"t1", "acct", 100, 0⟩, ⟨"t2", "acct", 200, 0⟩]
      "t1").2 ⟨"t1", "acct", 100, 0⟩ (by decide)).2 0

/-! ## Claim C5 -/

/-- C5: in token issuance, a failed persist of the minted refresh token
yields the internal 500 and no tokens (store unchanged); a failed
access-token mint after a successful persist also yields the internal 500
and no tokens, but the refresh token row is already in the store, is not
rolled back, and is live (not expired) at issuance time.  The `hfresh`
hypothesis is the freshness of the minted UUID. -/
theorem c5_issue_failure_paths (cfg : Config) (store : List RefreshToken)
    (accountID fresh jti : String) (now : Nat)
    (hfresh : getRefreshToken store fresh = none) :
    (∀ mintOk, generateAndPersistTokens cfg store accountID fresh jti now false mintOk
        = (.error internalTokenError, store)) ∧
    (generateAndPersistTokens cfg store accountID fresh jti now true false).1
        = .error internalTokenError ∧
    getRefreshToken (generateAndPersistTokens cfg store accountID fresh jti now true false).2 fresh
        = some ⟨fresh, accountID, now + cfg.refreshTokenTTLMinutes * 60, now⟩ ∧
    ¬ (now + cfg.refreshTokenTTLMinutes * 60 < now) := by
  refine ⟨fun mintOk => rfl, rfl, ?_, ?_⟩
  · exact getRefreshToken_createRefreshToken_self store fresh accountID _ now hfresh
  · omega

theorem c5_witness :
    getRefreshToken (generateAndPersistTokens cfgEx [] "acct" "t1" "j" 0 true false).2 "t1"
      = some ⟨"t1", "acct", 86400, 0⟩ :=
  (c5_issue_failure_paths cfgEx [] "acct" "t1" "j" 0 (by decide)).2.2.1

/-! ## Claim C6 -/

/-- C6: Login distinguishes its two authentication failures.  An email with
no account yields the 401 of type account_not_found whatever the password
(the account lookup decides before any password verification); a present
account with a non-verifying password yields the 401 of the distinct type
incorrect_password.  The two type strings differ. -/
theorem c6_login_failures_distinguished (cfg : Config) (accounts : List Account)
    (store : List RefreshToken) (email password fresh jti : String) (now : Nat)
    (persistOk mintOk : Bool) :
    (getAccount accounts email = none →
      login cfg accounts store email password fresh jti now persistOk mintOk
        = (.error { message := "No account was found matching this email",
                    type := errTypeAccountNotFound, statusCode := 401 }, store)) ∧
    (∀ a, getAccount accounts email = some a →
      PasswordIsCorrect password a.passwordHash = false →
      login cfg accounts store email password fresh jti now persistOk mintOk
        = (.error { message := "Password is incorrect",
                    type := errTypeIncorrectPassword, statusCode := 401 }, store)) ∧
    errTypeAccountNotFound ≠ errTypeIncorrectPassword := by
  refine ⟨?_, ?_, by decide⟩
  · intro h
    unfold login
    rw [h]
  · intro a ha hp
    unfold login
    rw [ha]
    dsimp only
    rw [hp]
    rfl

theorem c6_witness :
    login cfgEx [] [] "x@y.com" "pw" "t" "j" 0 true true
      = (.error { message := "No account was found matching this email",
                  type := errTypeAccountNotFound, statusCode := 401 }, []) :=
  (c6_login_failures_distinguished cfgEx [] [] "x@y.com" "pw" "t" "j" 0 true true).1 (by decide)

/-! ## Claim C7 -/

theorem length_le_utf8ByteSize_go (l : List Char) : l.length ≤ String.utf8ByteSize.go l := by
  induction l with
  | nil => simp [String.utf8ByteSize.go]
  | cons c cs ih =>
      have := Char.utf8Size_pos c
      simp only [List.length_cons, String.utf8ByteSize.go]
      omega

theorem length_le_utf8ByteSize (s : String) : s.length ≤ s.utf8ByteSize := by
  cases s with
  | mk data => simpa [String.utf8ByteSize, String.length] using length_le_utf8ByteSize_go data

/-- C7, as stated, is false of the code: the spec counts password length in
characters, but Go `len` counts UTF-8 bytes.  The 7-character password
"Aa1!ééé" (each é is two bytes, so ten bytes in all) passes the length gate
and every class gate, so `validatePassword` accepts it even though the claim
requires every password of fewer than 8 characters to be rejected. -/
theorem c7_counterexample_seven_chars_accepted :
    ¬ (∀ p : String, p.length < 8 → validatePassword p ≠ .ok ()) :=
  fun h => h "Aa1!ééé" (by decide) (by decide)

/-- C7 amended: the length bounds are measured in UTF-8 bytes (Go `len`), not
characters; for ASCII passwords — including all P4 vectors — the two agree,
and more than 72 characters always implies more than 72 bytes, so that
direction survives as stated.  The length checks are applied first (a short
password reports the length error whatever its classes), every accepted
password contains all four character classes, and the P4 vectors behave as
stated. -/
theorem c7_amended_password_gate :
    (∀ p : String, p.utf8ByteSize < 8 →
        validatePassword p = .error ⟨"password must be at least 8 characters long"⟩) ∧
    (∀ p : String, 72 < p.utf8ByteSize →
        validatePassword p = .error ⟨"password must be less than or equal to 72 characters long"⟩) ∧
    (∀ p : String, 72 < p.length →
        validatePassword p = .error ⟨"password must be less than or equal to 72 characters long"⟩) ∧
    (∀ p : String, validatePassword p = .ok () →
        8 ≤ p.utf8ByteSize ∧ p.utf8ByteSize ≤ 72 ∧
        matchString isLowercase p = true ∧ matchString isUppercase p = true ∧
        matchString isDigitChar p = true ∧ matchString isSpecialChar p = true) ∧
    validatePassword "Aa1!bcd" = .error ⟨"password must be at least 8 characters long"⟩ ∧
    validatePassword (String.mk (List.replicate 73 'a')) =
      .error ⟨"password must be less than or equal to 72 characters long"⟩ ∧
    validatePassword "aa1!bcde" = .error ⟨complexityErrorMessage⟩ ∧
    validatePassword "AA1!BCDE" = .error ⟨complexityErrorMessage⟩ ∧
    validatePassword "Aab!cdef" = .error ⟨complexityErrorMessage⟩ ∧
    validatePassword "Aa1bcdef" = .error ⟨complexityErrorMessage⟩ ∧
    validatePassword "Aa1!bcde" = .ok () := by
  refine ⟨?_, ?_, ?_, ?_, by decide, by decide, by decide, by decide, by decide, by decide,
    by decide⟩
  · intro p h
    unfold validatePassword
    rw [if_pos h]
  · intro p h
    unfold validatePassword
    rw [if_neg (by omega), if_pos h]
  · intro p h
    have hb := length_le_utf8ByteSize p
    unfold validatePassword
    rw [if_neg (by omega), if_pos (by omega)]
  · intro p h
    unfold validatePassword at h
    split at h
    · simp at h
    next h1 =>
      split at h
      · simp at h
      next h2 =>
        split at h
        · simp at h
        next h3 =>
          split at h
          · simp at h
          next h4 =>
            split at h
            · simp at h
            next h5 =>
              split at h
              · simp at h
              next h6 =>
                simp only [Bool.not_eq_true, Bool.not_eq_false'] at h3 h4 h5 h6
                exact ⟨by omega, by omega, h3, h4, h5, h6⟩

theorem c7_amended_witness :
    validatePassword "A1!" = .error ⟨"password must be at least 8 characters long"⟩ :=
  c7_amended_password_gate.1 "A1!" (by decide)

/-! ## Claim C8 -/

/-- C8: the email gate accepts the three P5 positives and rejects the six P5
negatives (missing at-sign, missing domain, missing local part, doubled
at-sign, empty string, embedded whitespace). -/
theorem c8_email_gate :
    IsValidEmail "user@example.com" = true ∧
    IsValidEmail "user+tag@example.com" = true ∧
    IsValidEmail "user.name@mail.example.com" = true ∧
    IsValidEmail "userexample.com" = false ∧
    IsValidEmail "user@" = false ∧
    IsValidEmail "@example.com" = false ∧
    IsValidEmail "user@@example.com" = false ∧
    IsValidEmail "" = false ∧
    IsValidEmail "user name@example.com" = false := by
  decide

/-! ## Claim C9 -/

/-- C9: for a password passing the complexity gate, hashing succeeds and
verification of the same password against the produced hash returns true,
while verification of any different password returns false (the hash model
is ideal: injective per salt, as the spec's P3 demands). -/
theorem c9_hash_verify_roundtrip (salt : Nat) (P : String)
    (hvalid : validatePassword P = .ok ()) :
    ∃ h, HashPassword salt P = .ok h ∧ PasswordIsCorrect P h = true ∧
      ∀ P2, P2 ≠ P → PasswordIsCorrect P2 h = false := by
  refine ⟨bcryptGenerateFromPassword salt bcryptDefaultCost P, ?_, ?_, ?_⟩
  · unfold HashPassword
    rw [hvalid]
  · show (bcryptGenerateFromPassword salt bcryptDefaultCost P
        == bcryptGenerateFromPassword salt bcryptDefaultCost P) = true
    exact beq_self_eq_true _
  · intro P2 hne
    show (bcryptGenerateFromPassword salt bcryptDefaultCost P2
        == bcryptGenerateFromPassword salt bcryptDefaultCost P) = false
    rw [beq_eq_false_iff_ne]
    intro hc
    exact hne (congrArg BcryptHash.key hc)

theorem c9_witness :
    ∃ h, HashPassword 0 "Aa1!bcde" = .ok h ∧ PasswordIsCorrect "Aa1!bcde" h = true ∧
      ∀ P2, P2 ≠ "Aa1!bcde" → PasswordIsCorrect P2 h = false :=
  c9_hash_verify_roundtrip 0 "Aa1!bcde" (by decide)

/-! ## Claim C10 -/

theorem writeErrorResponse_commits_200 (w : ResponseWriter)
    (hw : w.committedStatus = none) (requestID : String) (e : ErrorResponse) :
    (WriteErrorResponse w requestID e).committedStatus = some 200 := by
  unfold WriteErrorResponse rwWrite rwWriteHeader
  rw [hw]

/-- C10: `WriteErrorResponse` JSON-encodes the body into the writer before
calling WriteHeader, and the first body write commits an implicit 200, so on
a fresh writer every error response — whatever statusCode the handler set —
is transmitted with status 200; in particular every error path of the
register, login, refresh and logout handlers transmits 200. -/
theorem c10_error_paths_transmit_200 :
    (∀ (requestID : String) (e : ErrorResponse),
        (WriteErrorResponse freshWriter requestID e).committedStatus = some 200) ∧
    (∀ (requestID : String) (accounts : List Account) (email password : String)
        (salt : Nat) (newID : String) (e : ErrorResponse),
        (register accounts email password salt newID).1 = .error e →
        (registerHTTP freshWriter requestID accounts email password salt newID).committedStatus
          = some 200) ∧
    (∀ (requestID : String) (cfg : Config) (accounts : List Account)
        (store : List RefreshToken) (email password fresh jti : String) (now : Nat)
        (persistOk mintOk : Bool) (e : ErrorResponse),
        (login cfg accounts store email password fresh jti now persistOk mintOk).1 = .error e →
        (loginHTTP freshWriter requestID cfg accounts store email password fresh jti now
            persistOk mintOk).committedStatus = some 200) ∧
    (∀ (requestID : String) (cfg : Config) (store : List RefreshToken)
        (reqToken fresh jti : String) (now : Nat) (persistOk mintOk : Bool)
        (e : ErrorResponse),
        (refresh cfg store reqToken fresh jti now persistOk mintOk).1 = .error e →
        (refreshHTTP freshWriter requestID cfg store reqToken fresh jti now
            persistOk mintOk).committedStatus = some 200) ∧
    (∀ (requestID : String) (store : List RefreshToken) (reqToken : String)
        (deleteOk : Bool) (e : ErrorResponse),
        (logout store reqToken deleteOk).1 = .error e →
        (logoutHTTP freshWriter requestID store reqToken deleteOk).committedStatus
          = some 200) := by
  refine ⟨?_, ?_, ?_, ?_, ?_⟩
  · intro requestID e
    exact writeErrorResponse_commits_200 freshWriter rfl requestID e
  · intro requestID accounts email password salt newID e h
    unfold registerHTTP
    rw [h]
    exact writeErrorResponse_commits_200 freshWriter rfl requestID e
  · intro requestID cfg accounts store email password fresh jti now persistOk mintOk e h
    unfold loginHTTP
    rw [h]
    exact writeErrorResponse_commits_200 freshWriter rfl requestID e
  · intro requestID cfg store reqToken fresh jti now persistOk mintOk e h
    unfold refreshHTTP
    rw [h]
    exact writeErrorResponse_commits_200 freshWriter rfl requestID e
  · intro requestID store reqToken deleteOk e h
    unfold logoutHTTP
    rw [h]
    exact writeErrorResponse_commits_200 freshWriter rfl requestID e

theorem c10_witness :
    (registerHTTP freshWriter "req-1" [] "not-an-email" "Aa1!bcde" 0 "acct-1").committedStatus
      = some 200 :=
  c10_error_paths_transmit_200.2.1 "req-1" [] "not-an-email" "Aa1!bcde" 0 "acct-1"
    { message := "The provided email address is invalid", type := errTypeValidationError,
      statusCode := 422 } (by decide)

end AccountManagement
